import Mathlib

/-!
Verification of the kivy-warmup Hue bridge client and its UI fetch/command
coordinator, as a shallow embedding in Lean 4.

Source layout modelled here:
  - `src/myapp/hue.py`  → namespace `Hue`   (newer revision of the bridge client)
  - `src/hue.py`        → namespace `Hue0`  (older revision of the bridge client)
  - `src/myapp/ui.py`   → namespace `Ui`    (HueTile command dispatch)
  - `src/myapp/app.py`  → namespace `App`   (MainScreen rooms fetch coordinator)
  - `src/main.py`       → namespace `Main`  (MainScreen fetch with duplicate
                                             suppression)

JSON values decoded from bridge responses are modelled by the `Json` inductive
below; JSON numbers are modelled as integers (the bridge transmits integral
brightness/hue/saturation values).  Network effects are made explicit: a
function that performs an HTTP call is modelled on the decoded response it
receives (queries) or on the request it emits (commands), and Python
exceptions are modelled with `Except`.
-/

/-- Model of a decoded JSON value.  Numbers are restricted to integers, which
covers every numeric field the bridge protocol uses. -/
inductive Json where
  | null
  | bool (b : Bool)
  | num (n : Int)
  | str (s : String)
  | arr (xs : List Json)
  | obj (kvs : List (String × Json))

namespace Json

/-- Key lookup on a JSON object, `none` on a missing key or a non-object.
Models Python `d[k]` / `k in d` presence tests on decoded JSON objects
(`json.loads` keeps one binding per key; we model objects as association
lists and take the first binding). -/
def lookup? : Json → String → Option Json
  | .obj kvs, k => kvs.lookup k
  | _, _ => none

/-- Models Python `d.get(k, default)` on a decoded JSON object. -/
def getD (j : Json) (k : String) (d : Json) : Json :=
  (j.lookup? k).getD d

/-- Python truthiness (`bool(x)`) of a decoded JSON value. -/
def truthy : Json → Bool
  | .null => false
  | .bool b => b
  | .num n => n != 0
  | .str s => s != ""
  | .arr xs => !xs.isEmpty
  | .obj kvs => !kvs.isEmpty

/-- Models Python `isinstance(x, (int, float))`; note that Python `bool` is a
subclass of `int`, so JSON booleans count as numeric. -/
def isNumeric : Json → Bool
  | .num _ => true
  | .bool _ => true
  | _ => false

/-- Numeric value of a JSON value for which `isNumeric` holds (Python treats
`True` as `1` and `False` as `0`). -/
def toIntVal : Json → Int
  | .num n => n
  | .bool b => if b then 1 else 0
  | _ => 0

/-- Models Python `x == s` for a string literal `s` against a decoded JSON
value (only a JSON string can compare equal to a Python `str`). -/
def isStr (j : Json) (s : String) : Bool :=
  match j with
  | .str t => t == s
  | _ => false

end Json

/-- Exact rounding of the rational `num / den` (for `den > 0`) to the nearest
integer, ties to even: the semantics of Python 3 `round` on the exactly
representable values the brightness/hue formulas produce. -/
def pyRoundDiv (num den : Int) : Int :=
  let q := num.fdiv den
  let r := num.fmod den
  if 2 * r < den then q
  else if 2 * r > den then q + 1
  else if q % 2 = 0 then q else q + 1

/-- Lexicographic comparison of character lists by code point, the order
Python uses to compare `str` values. -/
def lexLe : List Char → List Char → Bool
  | [], _ => true
  | _ :: _, [] => false
  | a :: as, b :: bs =>
    if a.toNat < b.toNat then true
    else if b.toNat < a.toNat then false
    else lexLe as bs

/-- Python string order `a <= b` (code-point lexicographic). -/
def strLe (a b : String) : Prop :=
  lexLe a.data b.data = true

instance : DecidableRel strLe := by
  intro a b
  unfold strLe
  infer_instance

theorem lexLe_total (as bs : List Char) : lexLe as bs = true ∨ lexLe bs as = true := by
  induction as generalizing bs with
  | nil => left; rfl
  | cons a as ih =>
    cases bs with
    | nil => right; rfl
    | cons b bs =>
      rcases Nat.lt_trichotomy a.toNat b.toNat with h | h | h
      · left; simp [lexLe, h]
      · rcases ih bs with h2 | h2
        · left; simp [lexLe, h, h2]
        · right; simp [lexLe, h, h2]
      · right; simp [lexLe, h, Nat.lt_asymm h]

theorem lexLe_trans (as bs cs : List Char) (h1 : lexLe as bs = true)
    (h2 : lexLe bs cs = true) : lexLe as cs = true := by
  induction as generalizing bs cs with
  | nil => rfl
  | cons a as ih =>
    cases bs with
    | nil => simp [lexLe] at h1
    | cons b bs =>
      cases cs with
      | nil => simp [lexLe] at h2
      | cons c cs =>
        simp only [lexLe] at h1 h2 ⊢
        split_ifs at h1 h2 ⊢ with hab hba hbc hcb hac hca <;>
          first
            | rfl
            | omega
            | exact ih bs cs h1 h2

instance : IsTotal String strLe :=
  ⟨fun a b => lexLe_total a.data b.data⟩

instance : IsTrans String strLe :=
  ⟨fun a b c => lexLe_trans a.data b.data c.data⟩

/-- Models Python `sorted(set(l))` on a list of strings: remove duplicates,
then sort ascending in code-point order. -/
def sortedDedup (l : List String) : List String :=
  List.insertionSort strLe l.dedup

theorem sortedDedup_sorted (l : List String) : (sortedDedup l).Sorted strLe :=
  List.sorted_insertionSort strLe l.dedup

theorem sortedDedup_nodup (l : List String) : (sortedDedup l).Nodup :=
  (List.perm_insertionSort strLe l.dedup).nodup_iff.mpr l.nodup_dedup

theorem mem_sortedDedup (l : List String) (x : String) :
    x ∈ sortedDedup l ↔ x ∈ l := by
  unfold sortedDedup
  rw [List.mem_insertionSort, List.mem_dedup]

namespace Hue

/-!
Embedding of `src/myapp/hue.py` (the newer revision of the bridge client).
Each query function is modelled on the decoded JSON response it would receive
from the bridge; each command function is modelled by the request it emits.
-/

/-- Payload of the `RuntimeError` raised by `_raise_if_error`: the `type`,
`description` and `address` fields read off the bridge error envelope with
`err.get(...)` (formatted into the exception message by the source). -/
structure HueError where
  type : Option Json
  description : Option Json
  address : Option Json

/-- Fields extracted from the value of an `"error"` key by `_raise_if_error`
(`err.get('type')`, `err.get('description')`, `err.get('address')`). -/
def errFrom (err : Json) : HueError :=
  ⟨err.lookup? "type", err.lookup? "description", err.lookup? "address"⟩

/-- First element of a response list that is an object carrying an `"error"`
key, as scanned by the loop in `_raise_if_error`
(`isinstance(item, dict) and "error" in item`). -/
def firstListError : List Json → Option Json
  | [] => none
  | item :: rest =>
    match item with
    | .obj kvs =>
      match kvs.lookup "error" with
      | some err => some err
      | none => firstListError rest
    | _ => firstListError rest

/-- Embedding of `_raise_if_error` in `src/myapp/hue.py` (lines 160-179):
a list response is scanned for an `{"error": ...}` entry, a dict response is
checked for an `"error"` key, and any other error-free response is returned
unchanged. -/
def raise_if_error (resp_json : Json) : Except HueError Json :=
  match resp_json with
  | .arr items =>
    match firstListError items with
    | some err => .error (errFrom err)
    | none => .ok resp_json
  | .obj kvs =>
    match kvs.lookup "error" with
    | some err => .error (errFrom err)
    | none => .ok resp_json
  | _ => .ok resp_json

/-- Observable state of the config environment when `load_config` runs:
the file is absent, present but failing to read or parse, or present with a
decoded JSON value. -/
inductive FileSt where
  | absent
  | failing
  | content (j : Json)

/-- Config record returned by `load_config`; only the two keys the rest of
the client reads are modelled (the source returns the whole updated dict). -/
structure HueConfig where
  bridge_ip : Json
  username : Json

/-- Embedding of `load_config` in `src/myapp/hue.py` (lines 139-157): start
from empty-string defaults; if the file exists, update the defaults from its
parsed object; if the file is absent, or reading/parsing/updating raises,
fall back to the `HUE_BRIDGE_IP` / `HUE_USERNAME` environment variables
(absent variables read as `""` via `os.environ.get(..., "")`).  The function
is total: no branch raises. -/
def load_config (file : FileSt) (envIp envUser : Option String) : HueConfig :=
  let env_cfg : HueConfig := ⟨.str (envIp.getD ""), .str (envUser.getD "")⟩
  match file with
  | .content (Json.obj kvs) =>
    ⟨(kvs.lookup "bridge_ip").getD (.str ""), (kvs.lookup "username").getD (.str "")⟩
  | .content _ => env_cfg
  | .failing => env_cfg
  | .absent => env_cfg

/-- PUT request emitted by a command operation: the path parts passed to
`_api_url` (which prefixes `http://bridge_ip/api/username/`) and the JSON
body. -/
structure PutRequest where
  path : List String
  body : List (String × Json)

/-- Brightness payload computed by `set_brightness` (lines 288-295):
`pct = max(0, min(100, int(percent)))` then
`bri = max(1, min(254, int(round(pct * 254 / 100))))`. -/
def set_brightness_bri (percent : Int) : Int :=
  let pct := max 0 (min 100 percent)
  max 1 (min 254 (pyRoundDiv (pct * 254) 100))

/-- Embedding of `set_brightness` in `src/myapp/hue.py` (lines 288-295): the
PUT request it sends to `lights/{id}/state`, with body
`{"on": True, "bri": bri}`. -/
def set_brightness (light_id : Int) (percent : Int) : PutRequest :=
  { path := ["lights", toString light_id, "state"],
    body := [("on", .bool true), ("bri", .num (set_brightness_bri percent))] }

/-- UI-scale brightness read back from a device value by the list queries:
`int(round(bri_raw * 100 / 254))`. -/
def bri_to_percent (bri_raw : Int) : Int :=
  pyRoundDiv (bri_raw * 100) 254

/-- Per-item record built by the list queries. -/
structure ItemInfo where
  name : Json
  is_on : Bool
  bri : Int
  supports_color : Bool

/-- Loop body of `list_lights_detailed` (lines 197-212) for one light entry:
`on` from `state.on` truthiness, `bri` from `state.get("bri", 254)` rounded
to percent when numeric and otherwise `100 if on else 0`, and colour support
from a `hue` channel or an `hs`/`xy` colormode. -/
def lightEntry (lid : String) (info : Json) : ItemInfo :=
  let state := info.getD "state" (.obj [])
  let is_on := (state.getD "on" (.bool false)).truthy
  let bri_raw := state.getD "bri" (.num 254)
  let bri := if bri_raw.isNumeric then bri_to_percent bri_raw.toIntVal
             else (if is_on then 100 else 0)
  let supports := (state.lookup? "hue").isSome
                  || (state.getD "colormode" .null).isStr "hs"
                  || (state.getD "colormode" .null).isStr "xy"
  ⟨info.getD "name" (.str ("Light " ++ lid)), is_on, bri, supports⟩

/-- Embedding of `list_lights_detailed` in `src/myapp/hue.py` (lines
192-213), applied to the decoded `/lights` response.  Keys are kept as the
response's strings (the source converts them with `int(lid)`). -/
def list_lights_detailed (data : Json) : Except HueError (List (String × ItemInfo)) :=
  match raise_if_error data with
  | .error e => .error e
  | .ok _ =>
    match data with
    | .obj kvs => .ok (kvs.map (fun kv => (kv.1, lightEntry kv.1 kv.2)))
    | _ => .ok []

/-- Loop body of `list_rooms_detailed` (lines 314-332) for one group entry:
`on = bool(st.get("any_on", st.get("all_on", act.get("on", False))))` (the
aggregate `state` fields are preferred over the commanded `action.on`),
while `bri` and colour support still come from `action`. -/
def roomEntry (gid : String) (info : Json) : ItemInfo :=
  let st := info.getD "state" (.obj [])
  let act := info.getD "action" (.obj [])
  let is_on := (st.getD "any_on" (st.getD "all_on" (act.getD "on" (.bool false)))).truthy
  let bri_raw := act.getD "bri" (.num 254)
  let bri := if bri_raw.isNumeric then bri_to_percent bri_raw.toIntVal
             else (if is_on then 100 else 0)
  let supports := (act.lookup? "hue").isSome
                  || (act.getD "colormode" .null).isStr "hs"
                  || (act.getD "colormode" .null).isStr "xy"
  ⟨info.getD "name" (.str ("Room " ++ gid)), is_on, bri, supports⟩

/-- Embedding of `list_rooms_detailed` in `src/myapp/hue.py` (lines 310-333),
applied to the decoded `/groups` response: groups whose `type` is not
`"Room"` are skipped, the rest go through `roomEntry`. -/
def list_rooms_detailed (data : Json) : Except HueError (List (String × ItemInfo)) :=
  match raise_if_error data with
  | .error e => .error e
  | .ok _ =>
    match data with
    | .obj kvs =>
      .ok ((kvs.filter (fun kv => (kv.2.getD "type" .null).isStr "Room")).map
        (fun kv => (kv.1, roomEntry kv.1 kv.2)))
    | _ => .ok []

/-- Embedding of `room_is_on` in `src/myapp/hue.py` (lines 466-476), applied
to the decoded `/groups/{id}` response: prefer the aggregate `state.any_on`,
then `state.all_on`, and only then fall back to the commanded `action.on`. -/
def room_is_on (data : Json) : Except HueError Bool :=
  match raise_if_error data with
  | .error e => .error e
  | .ok _ =>
    let st := data.getD "state" (.obj [])
    match st.lookup? "any_on" with
    | some v => .ok v.truthy
    | none =>
      match st.lookup? "all_on" with
      | some v => .ok v.truthy
      | none => .ok (((data.getD "action" (.obj [])).getD "on" (.bool false)).truthy)

/-- Result of one discovery strategy: either the list of addresses it
returned or the exception it raised (`discover_bridges` wraps every strategy
in `try/except`). -/
def strategyIPs : Except Unit (List String) → List String
  | .ok ips => ips
  | .error _ => []

/-- Embedding of `discover_bridges` in `src/myapp/hue.py` (lines 366-388):
the meethue cloud lookup (skipped when `skip_cloud`), the SSDP probe, the
mDNS resolution (at most one address) and the TCP subnet sweep each
contribute their addresses, a raising strategy contributes nothing, and the
result is `sorted(set(ips))`. -/
def discover_bridges (skip_cloud : Bool)
    (meethue ssdp : Except Unit (List String))
    (mdns : Except Unit (Option String))
    (sweep : Except Unit (List String)) : List String :=
  let ips : List String :=
    (if skip_cloud then [] else strategyIPs meethue)
    ++ strategyIPs ssdp
    ++ (match mdns with
        | .ok (some ip) => [ip]
        | _ => [])
    ++ strategyIPs sweep
  sortedDedup ips

end Hue

namespace Hue0

/-!
Embedding of `src/hue.py` (the older revision of the bridge client).  Only
the functions this revision implements differently from `src/myapp/hue.py`
are modelled: `load_config` (raises when unconfigured), `_raise_if_error`
(list shape only) and `list_rooms_detailed` (reads `action.on` only).  Its
`set_brightness` and `list_lights_detailed` compute exactly the same values
as the `Hue` versions.
-/

/-- Embedding of `_raise_if_error` in `src/hue.py` (lines 24-32): only a
list response is scanned for an `{"error": ...}` entry; every other shape —
including a single `{"error": ...}` object — is returned unchanged. -/
def raise_if_error (resp_json : Json) : Except Hue.HueError Json :=
  match resp_json with
  | .arr items =>
    match Hue.firstListError items with
    | some err => .error (Hue.errFrom err)
    | none => .ok resp_json
  | _ => .ok resp_json

/-- Truthiness of an optional environment-variable string, as in
`if ip and user:` (an unset variable is `None`, and an empty string is
falsy). -/
def envTruthy : Option String → Bool
  | some s => s != ""
  | none => false

/-- Embedding of `load_config` in `src/hue.py` (lines 12-21): return the
parsed file if present (a read or parse failure propagates as an
exception), otherwise return the environment variables if both are truthy,
otherwise raise `RuntimeError`. -/
def load_config (file : Hue.FileSt) (envIp envUser : Option String) :
    Except String Json :=
  match file with
  | .content j => .ok j
  | .failing => .error "file read or JSON parse error propagates"
  | .absent =>
    if envTruthy envIp && envTruthy envUser then
      .ok (.obj [("bridge_ip", .str (envIp.getD "")), ("username", .str (envUser.getD ""))])
    else
      .error "Hue config missing. Run save_config() or set HUE_BRIDGE_IP/HUE_USERNAME."

/-- Loop body of `list_rooms_detailed` in `src/hue.py` (lines 105-122) for
one group entry: unlike the newer revision, `on = bool(act.get("on", False))`
reads only the last commanded `action.on` and ignores the aggregate
`state.any_on` / `state.all_on` fields entirely. -/
def roomEntry (gid : String) (info : Json) : Hue.ItemInfo :=
  let act := info.getD "action" (.obj [])
  let is_on := (act.getD "on" (.bool false)).truthy
  let bri_raw := act.getD "bri" (.num 254)
  let bri := if bri_raw.isNumeric then Hue.bri_to_percent bri_raw.toIntVal
             else (if is_on then 100 else 0)
  let supports := (act.lookup? "hue").isSome
                  || (act.getD "colormode" .null).isStr "hs"
                  || (act.getD "colormode" .null).isStr "xy"
  ⟨info.getD "name" (.str ("Room " ++ gid)), is_on, bri, supports⟩

/-- Embedding of `list_rooms_detailed` in `src/hue.py` (lines 95-123),
applied to the decoded `/groups` response. -/
def list_rooms_detailed (data : Json) : Except Hue.HueError (List (String × Hue.ItemInfo)) :=
  match raise_if_error data with
  | .error e => .error e
  | .ok _ =>
    match data with
    | .obj kvs =>
      .ok ((kvs.filter (fun kv => (kv.2.getD "type" .null).isStr "Room")).map
        (fun kv => (kv.1, roomEntry kv.1 kv.2)))
    | _ => .ok []

/-- Brightness payload computed by `set_brightness` in `src/hue.py` (lines
72-79); the formula is identical to the newer revision's. -/
def set_brightness_bri (percent : Int) : Int :=
  let pct := max 0 (min 100 percent)
  max 1 (min 254 (pyRoundDiv (pct * 254) 100))

/-- Embedding of `set_brightness` in `src/hue.py` (lines 72-79): the PUT
request it sends to `lights/{id}/state`, with body
`{"on": True, "bri": bri}`. -/
def set_brightness (light_id : Int) (percent : Int) : Hue.PutRequest :=
  { path := ["lights", toString light_id, "state"],
    body := [("on", .bool true), ("bri", .num (set_brightness_bri percent))] }

end Hue0

namespace Ui

/-!
Embedding of the command dispatch in `src/myapp/ui.py` (`HueTile`).  A
command request spawns a worker thread that performs exactly one network
call; the code contains no per-item busy flag, so nothing inspects whether a
previous command is still in flight.  The `dispatched` list records the
network calls handed to worker threads, in request order.
-/

/-- Network call dispatched by a `HueTile` worker thread. -/
inductive HueCall where
  | set_on (item_id : Int) (new_state : Bool)
  | set_brightness (item_id : Int) (percent : Int)

/-- Observable state of one `HueTile`: its `is_on` / `brightness` properties
and the network calls its worker threads have dispatched so far. -/
structure TileState where
  is_on : Bool
  brightness : Int
  dispatched : List HueCall

/-- Embedding of `HueTile.toggle` (`src/myapp/ui.py` lines 44-55): capture
`target_state = not self.is_on` and unconditionally start a worker thread
that calls the toggle API once.  No busy flag is consulted or set. -/
def HueTile.toggle (item_id : Int) (s : TileState) : TileState :=
  let target_state := !s.is_on
  { s with dispatched := s.dispatched ++ [.set_on item_id target_state] }

/-- Embedding of `HueTile._commit_brightness` (`src/myapp/ui.py` lines
82-101): capture `percent = int(self.brightness)` and unconditionally start
a worker thread that calls the brightness API once. -/
def HueTile.commit_brightness (item_id : Int) (s : TileState) : TileState :=
  let percent := s.brightness
  { s with dispatched := s.dispatched ++ [.set_brightness item_id percent] }

/-- Embedding of `HueTile._set_on`, the completion callback scheduled onto
the UI thread after a successful call. -/
def HueTile.set_on_cb (new_state : Bool) (s : TileState) : TileState :=
  { s with is_on := new_state }

end Ui

namespace App

/-!
Embedding of the rooms fetch coordinator in `src/myapp/app.py`
(`MainScreen.fetch_rooms_async`, lines 78-113).  The UI thread runs
`fetch_rooms_begin` when a fetch is requested; the background worker's
completion is the scheduled `assign` closure followed by the `finally`
clause, modelled by `fetch_rooms_assign` and `fetch_rooms_finish`.
-/

/-- Observable `MainScreen` state relevant to the rooms fetch: the loading
flag, the rooms collection (`none` before any assignment) and the
generation counter `_gen_rooms`.  The rooms data is abstracted over `α`. -/
structure MainScreenState (α : Type) where
  loading_rooms : Bool
  rooms : Option α
  gen_rooms : Nat

/-- Start of `fetch_rooms_async`: set `loading_rooms`, increment
`_gen_rooms` and capture `gen = int(self._gen_rooms)` for the spawned
worker.  Returns the new state and the captured generation token. -/
def fetch_rooms_begin {α : Type} (s : MainScreenState α) : MainScreenState α × Nat :=
  let s := { s with loading_rooms := true, gen_rooms := s.gen_rooms + 1 }
  (s, s.gen_rooms)

/-- The `assign` closure scheduled by the worker on success: if the captured
token no longer equals the current counter the result is dropped, otherwise
it replaces the rooms collection. -/
def fetch_rooms_assign {α : Type} (s : MainScreenState α) (gen : Nat) (items : α) :
    MainScreenState α :=
  if gen ≠ s.gen_rooms then s else { s with rooms := some items }

/-- The `finally` clause scheduled by the worker: clear the loading flag. -/
def fetch_rooms_finish {α : Type} (s : MainScreenState α) : MainScreenState α :=
  { s with loading_rooms := false }

end App

namespace Main

/-!
Embedding of the fetch coordinator in `src/main.py` (`MainScreen.fetch`,
`fetch_rooms_async` and `fetch_lights_async`, lines 306-394).  Unlike the
`src/myapp/app.py` revision, `fetch` increments `_gen` first and the two
async helpers then refuse to start a new worker while `loading_lights` is
set.
-/

/-- Current view of the `MainScreen` (`self.view`), deciding which async
fetch `fetch()` dispatches to. -/
inductive View where
  | rooms
  | lights

/-- Observable `MainScreen` state of `src/main.py`: the generation counter
`_gen`, the shared `loading_lights` flag, the current view and the contents
of `item_grid` (`none` before any assignment), abstracted over `α`. -/
structure MainScreenState (α : Type) where
  gen : Nat
  loading_lights : Bool
  view : View
  item_grid : Option α

/-- Start of `fetch_rooms_async(gen)` (lines 314-317): if a fetch is already
in flight the call returns without starting a worker (`some gen` is the
token handed to the spawned worker, `none` means no worker was spawned). -/
def fetch_rooms_async_begin {α : Type} (s : MainScreenState α) (gen : Nat) :
    MainScreenState α × Option Nat :=
  if s.loading_lights then (s, none)
  else ({ s with loading_lights := true }, some gen)

/-- Start of `fetch_lights_async(gen)` (lines 357-360); the guard is
identical to the rooms variant. -/
def fetch_lights_async_begin {α : Type} (s : MainScreenState α) (gen : Nat) :
    MainScreenState α × Option Nat :=
  if s.loading_lights then (s, none)
  else ({ s with loading_lights := true }, some gen)

/-- Embedding of `MainScreen.fetch` (lines 306-312): increment `_gen`,
capture `gen = int(self._gen)`, then dispatch on the current view. -/
def fetch {α : Type} (s : MainScreenState α) : MainScreenState α × Option Nat :=
  let s := { s with gen := s.gen + 1 }
  let gen := s.gen
  match s.view with
  | .rooms => fetch_rooms_async_begin s gen
  | .lights => fetch_lights_async_begin s gen

/-- The `assign` closure of `fetch_rooms_async` (lines 322-342): a stale
token is dropped, a current one replaces the grid contents. -/
def fetch_rooms_assign {α : Type} (s : MainScreenState α) (gen : Nat) (details : α) :
    MainScreenState α :=
  if gen ≠ s.gen then s else { s with item_grid := some details }

/-- The `finally` clause of `fetch_rooms_async` (lines 351-352): clear the
loading flag. -/
def fetch_rooms_finish {α : Type} (s : MainScreenState α) : MainScreenState α :=
  { s with loading_lights := false }

end Main

/-- C1 (generation guard, `src/myapp/app.py` `MainScreen.fetch_rooms_async`):
begin fetch A, then fetch B, on the rooms collection; B's network call
completes first and is applied, A's completes afterwards with a stale
generation token and is discarded, so the observable collection reflects
only B's data.  In general, any completion whose captured token differs from
the current counter leaves the collection unchanged (second conjunct). -/
theorem c1_generation_guard {α : Type} (s0 : App.MainScreenState α) (dA dB : α)
    (s : App.MainScreenState α) (g : Nat) (d : α) (hg : g ≠ s.gen_rooms) :
    (App.fetch_rooms_finish (App.fetch_rooms_assign
      (App.fetch_rooms_finish (App.fetch_rooms_assign
        (App.fetch_rooms_begin (App.fetch_rooms_begin s0).1).1
        (App.fetch_rooms_begin (App.fetch_rooms_begin s0).1).2 dB))
      (App.fetch_rooms_begin s0).2 dA)).rooms = some dB
    ∧ (App.fetch_rooms_assign s g d).rooms = s.rooms := by
  constructor
  · simp only [App.fetch_rooms_begin, App.fetch_rooms_assign, App.fetch_rooms_finish]
    split_ifs <;> simp_all
  · simp [App.fetch_rooms_assign, hg]

/-- Witness for `c1_generation_guard` at a concrete initial state: fetch A
then fetch B with data 1 and 2, B completing first; the rooms collection
ends as `some 2`. -/
theorem c1_generation_guard_witness :
    (3 ≠ (⟨false, none, 5⟩ : App.MainScreenState Nat).gen_rooms)
    ∧ ((App.fetch_rooms_finish (App.fetch_rooms_assign
        (App.fetch_rooms_finish (App.fetch_rooms_assign
          (App.fetch_rooms_begin (App.fetch_rooms_begin
            (⟨false, none, 0⟩ : App.MainScreenState Nat)).1).1
          (App.fetch_rooms_begin (App.fetch_rooms_begin
            (⟨false, none, 0⟩ : App.MainScreenState Nat)).1).2 2))
        (App.fetch_rooms_begin (⟨false, none, 0⟩ : App.MainScreenState Nat)).2 1)).rooms = some 2
      ∧ (App.fetch_rooms_assign (⟨false, none, 5⟩ : App.MainScreenState Nat) 3 7).rooms
          = (⟨false, none, 5⟩ : App.MainScreenState Nat).rooms) :=
  ⟨by decide, c1_generation_guard ⟨false, none, 0⟩ 1 2 ⟨false, none, 5⟩ 3 7 (by decide)⟩

/-- C10 (`src/main.py` `MainScreen.fetch` re-entry): calling `fetch()` while
a rooms fetch is in flight increments `_gen` before the duplicate-suppression
check in `fetch_rooms_async`, so the second call spawns no worker, and the
in-flight fetch's completion is discarded by the token check: the grid is
updated by neither fetch. -/
theorem c10_fetch_reentry {α : Type} (s0 : Main.MainScreenState α) (d : α)
    (hl : s0.loading_lights = false) (hv : s0.view = Main.View.rooms) :
    (Main.fetch s0).2 = some (s0.gen + 1)
    ∧ (Main.fetch (Main.fetch s0).1).2 = none
    ∧ ((Main.fetch (Main.fetch s0).1).1).gen = s0.gen + 2
    ∧ (Main.fetch_rooms_finish (Main.fetch_rooms_assign ((Main.fetch (Main.fetch s0).1).1)
        (s0.gen + 1) d)).item_grid = s0.item_grid := by
  simp only [Main.fetch, Main.fetch_rooms_async_begin, Main.fetch_lights_async_begin,
    Main.fetch_rooms_assign, Main.fetch_rooms_finish, hv, hl]
  simp only [Bool.false_eq_true, if_false, hv, hl]
  split_ifs <;> simp_all

/-- Witness for `c10_fetch_reentry` at a concrete initial state. -/
theorem c10_fetch_reentry_witness :
    ((⟨0, false, Main.View.rooms, none⟩ : Main.MainScreenState Nat).loading_lights = false
      ∧ (⟨0, false, Main.View.rooms, none⟩ : Main.MainScreenState Nat).view = Main.View.rooms)
    ∧ ((Main.fetch (⟨0, false, Main.View.rooms, none⟩ : Main.MainScreenState Nat)).2 = some 1
      ∧ (Main.fetch (Main.fetch (⟨0, false, Main.View.rooms, none⟩ :
            Main.MainScreenState Nat)).1).2 = none
      ∧ ((Main.fetch (Main.fetch (⟨0, false, Main.View.rooms, none⟩ :
            Main.MainScreenState Nat)).1).1).gen = 2
      ∧ (Main.fetch_rooms_finish (Main.fetch_rooms_assign
          ((Main.fetch (Main.fetch (⟨0, false, Main.View.rooms, none⟩ :
            Main.MainScreenState Nat)).1).1) 1 42)).item_grid
          = (⟨0, false, Main.View.rooms, none⟩ : Main.MainScreenState Nat).item_grid) :=
  ⟨⟨rfl, rfl⟩, c10_fetch_reentry ⟨0, false, Main.View.rooms, none⟩ 42 rfl rfl⟩

/-- C2 counterexample: two toggle requests for the same item issued before
any completion dispatch two network calls, not one — `HueTile.toggle`
consults no busy flag, so the claimed single-flight guard does not exist. -/
theorem c2_single_flight_counterexample :
    ((Ui.HueTile.toggle 3 (Ui.HueTile.toggle 3 ⟨false, 0, []⟩)).dispatched.length = 2)
    ∧ ¬ ((Ui.HueTile.toggle 3 (Ui.HueTile.toggle 3 ⟨false, 0, []⟩)).dispatched.length = 1) := by
  constructor <;> simp [Ui.HueTile.toggle]

/-- C2 amended: there is no per-item busy flag; every toggle or brightness
command request dispatches its own network call, so two requests issued
before the first completes dispatch exactly two network calls (the second
request is neither dropped nor queued). -/
theorem c2_no_single_flight_amended (s : Ui.TileState) (i j : Int) :
    (Ui.HueTile.toggle i s).dispatched = s.dispatched ++ [.set_on i (!s.is_on)]
    ∧ (Ui.HueTile.commit_brightness j s).dispatched
        = s.dispatched ++ [.set_brightness j s.brightness]
    ∧ (Ui.HueTile.toggle j (Ui.HueTile.toggle i s)).dispatched.length
        = s.dispatched.length + 2
    ∧ (Ui.HueTile.commit_brightness j (Ui.HueTile.toggle i s)).dispatched.length
        = s.dispatched.length + 2 := by
  refine ⟨rfl, rfl, ?_, ?_⟩ <;>
    simp [Ui.HueTile.toggle, Ui.HueTile.commit_brightness]

/-- Decidable core of the brightness round trip, checked for every UI
percentage. -/
theorem brightness_round_trip_aux : ∀ p : Nat, p < 101 →
    1 ≤ Hue.set_brightness_bri p ∧ Hue.set_brightness_bri p ≤ 254
    ∧ (Hue.bri_to_percent (Hue.set_brightness_bri p) - p).natAbs ≤ 1 := by
  decide

/-- C3 (brightness round trip): for every integer percentage `p` in
`[0,100]`, the device value sent by `set_brightness` lies in `[1,254]` and
reading it back through the list queries' `round(b*100/254)` lands within
±1 of `p`; the older revision's formula is identical. -/
theorem c3_brightness_round_trip (p : Int) (h0 : 0 ≤ p) (h1 : p ≤ 100) :
    (1 ≤ Hue.set_brightness_bri p ∧ Hue.set_brightness_bri p ≤ 254
      ∧ (Hue.bri_to_percent (Hue.set_brightness_bri p) - p).natAbs ≤ 1)
    ∧ Hue0.set_brightness_bri p = Hue.set_brightness_bri p := by
  refine ⟨?_, rfl⟩
  lift p to ℕ using h0 with n
  have hn : n < 101 := by
    have : n ≤ 100 := by exact_mod_cast h1
    omega
  exact brightness_round_trip_aux n hn

/-- Witness for `c3_brightness_round_trip` at `p = 75`, the percentage where
Python's banker's rounding differs from round-half-up (device value 190). -/
theorem c3_brightness_round_trip_witness :
    ((0 : Int) ≤ 75 ∧ (75 : Int) ≤ 100)
    ∧ ((1 ≤ Hue.set_brightness_bri 75 ∧ Hue.set_brightness_bri 75 ≤ 254
        ∧ (Hue.bri_to_percent (Hue.set_brightness_bri 75) - 75).natAbs ≤ 1)
      ∧ Hue0.set_brightness_bri 75 = Hue.set_brightness_bri 75) :=
  ⟨⟨by decide, by decide⟩, c3_brightness_round_trip 75 (by decide) (by decide)⟩

/-- C4 (`set_brightness` request shape): the body always carries
`on = true`, the percentage is clamped to `[0,100]` before conversion, the
device value always lies in `[1,254]`, and `set_brightness(id, 0)` sends
device value 1 with `on = true` in both revisions. -/
theorem c4_set_brightness_on_true (light_id percent : Int) :
    (Hue.set_brightness light_id percent).body
        = [("on", Json.bool true), ("bri", Json.num (Hue.set_brightness_bri percent))]
    ∧ Hue.set_brightness_bri percent = Hue.set_brightness_bri (max 0 (min 100 percent))
    ∧ 1 ≤ Hue.set_brightness_bri percent ∧ Hue.set_brightness_bri percent ≤ 254
    ∧ (Hue.set_brightness light_id 0).body = [("on", Json.bool true), ("bri", Json.num 1)]
    ∧ (Hue0.set_brightness light_id 0).body = [("on", Json.bool true), ("bri", Json.num 1)] := by
  have hc : max 0 (min 100 (max 0 (min 100 percent))) = max 0 (min 100 percent) := by omega
  refine ⟨rfl, ?_, ?_, ?_, rfl, rfl⟩
  · simp only [Hue.set_brightness_bri, hc]
  · simp only [Hue.set_brightness_bri]
    omega
  · simp only [Hue.set_brightness_bri]
    omega

/-- C5 counterexample: the older revision's `_raise_if_error` (`src/hue.py`)
does not recognize the single-object error shape — a dict response carrying
an `"error"` entry is returned to the caller unchanged instead of being
raised, refuting the claim for that revision. -/
theorem c5_error_envelope_counterexample :
    Hue0.raise_if_error (.obj [("error", .obj [("type", .num 1),
        ("description", .str "unauthorized user"), ("address", .str "/")])])
      = .ok (.obj [("error", .obj [("type", .num 1),
        ("description", .str "unauthorized user"), ("address", .str "/")])])
    ∧ ∀ e : Hue.HueError, Hue0.raise_if_error (.obj [("error", .obj [("type", .num 1),
        ("description", .str "unauthorized user"), ("address", .str "/")])])
        ≠ .error e := by
  refine ⟨rfl, fun e h => ?_⟩
  exact Except.noConfusion h

/-- Helper: the error scan of `_raise_if_error` finds nothing in a list none
of whose object elements carries an `"error"` key. -/
theorem firstListError_eq_none (items : List Json)
    (h : ∀ kvs, Json.obj kvs ∈ items → kvs.lookup "error" = none) :
    Hue.firstListError items = none := by
  induction items with
  | nil => rfl
  | cons item rest ih =>
    have hr : ∀ kvs, Json.obj kvs ∈ rest → kvs.lookup "error" = none :=
      fun kvs hm => h kvs (List.mem_cons_of_mem _ hm)
    rcases item with _ | b | n | s | xs | kvs <;> simp [Hue.firstListError, ih hr]
    simp [h kvs (List.mem_cons_self _ _), ih hr]

/-- C5 amended: in `src/myapp/hue.py` both the list shape and the
single-object shape raise the same normalized error record, and any
response carrying no error entry is returned unchanged; in `src/hue.py`
only the list shape raises — a single-object error response is returned
unchanged. -/
theorem c5_error_envelope_amended :
    (∀ e : Json,
        Hue.raise_if_error (.arr [.obj [("error", e)]]) = .error (Hue.errFrom e)
        ∧ Hue.raise_if_error (.obj [("error", e)]) = .error (Hue.errFrom e))
    ∧ (∀ items : List Json,
        (∀ kvs, Json.obj kvs ∈ items → kvs.lookup "error" = none) →
          Hue.raise_if_error (.arr items) = .ok (.arr items))
    ∧ (∀ kvs : List (String × Json), kvs.lookup "error" = none →
          Hue.raise_if_error (.obj kvs) = .ok (.obj kvs))
    ∧ (∀ e : Json, Hue0.raise_if_error (.arr [.obj [("error", e)]]) = .error (Hue.errFrom e))
    ∧ (∀ e : Json, Hue0.raise_if_error (.obj [("error", e)]) = .ok (.obj [("error", e)])) := by
  refine ⟨fun e => ⟨rfl, rfl⟩, fun items h => ?_, fun kvs h => ?_, fun e => rfl, fun e => rfl⟩
  · simp [Hue.raise_if_error, firstListError_eq_none items h]
  · simp [Hue.raise_if_error, h]

/-- Witness for `c5_error_envelope_amended`: a success-list response and an
error-free object response are both returned unchanged. -/
theorem c5_error_envelope_amended_witness :
    Hue.raise_if_error (.arr [.obj [("success", .null)]])
        = .ok (.arr [.obj [("success", .null)]])
    ∧ Hue.raise_if_error (.obj [("lights", .obj [])]) = .ok (.obj [("lights", .obj [])]) :=
  ⟨c5_error_envelope_amended.2.1 [.obj [("success", .null)]]
      (by intro kvs hm; simp at hm; subst hm; rfl),
   c5_error_envelope_amended.2.2.1 [("lights", .obj [])] rfl⟩

/-- C6 counterexample: the older revision's `load_config` (`src/hue.py`)
raises `RuntimeError` when the config file is absent and the environment
variables are unset, refuting "load() never fails" for that revision. -/
theorem c6_load_config_counterexample :
    Hue0.load_config .absent none none
      = .error "Hue config missing. Run save_config() or set HUE_BRIDGE_IP/HUE_USERNAME."
    ∧ ∀ j : Json, Hue0.load_config .absent none none ≠ .ok j := by
  refine ⟨rfl, fun j h => ?_⟩
  exact Except.noConfusion h

/-- C6 amended: `load_config` in `src/myapp/hue.py` is total — an absent
file falls back to the environment variables (empty strings when unset, so
an unconfigured state returns empty strings rather than raising), a failing
read or parse also falls back to the environment, and a parsed object
overrides the empty-string defaults key by key; the `src/hue.py` revision,
by contrast, raises when the file is absent and the environment is unset. -/
theorem c6_load_config_amended :
    (∀ envIp envUser, Hue.load_config .absent envIp envUser
        = ⟨.str (envIp.getD ""), .str (envUser.getD "")⟩)
    ∧ (∀ envIp envUser, Hue.load_config .failing envIp envUser
        = ⟨.str (envIp.getD ""), .str (envUser.getD "")⟩)
    ∧ Hue.load_config .absent none none = ⟨.str "", .str ""⟩
    ∧ (∀ kvs envIp envUser, Hue.load_config (.content (.obj kvs)) envIp envUser
        = ⟨(kvs.lookup "bridge_ip").getD (.str ""), (kvs.lookup "username").getD (.str "")⟩)
    ∧ Hue0.load_config .absent none none
        = .error "Hue config missing. Run save_config() or set HUE_BRIDGE_IP/HUE_USERNAME." :=
  ⟨fun _ _ => rfl, fun _ _ => rfl, rfl, fun _ _ _ => rfl, rfl⟩

/-- C7 (discovery union, `src/myapp/hue.py` `discover_bridges`): the example
strategies combine to exactly the two distinct addresses; every result is
sorted and duplicate-free; a raising strategy contributes exactly what an
empty one does (so `discover_bridges` itself never raises and empty is a
valid outcome); with `skip_cloud` the cloud lookup contributes nothing; and
membership in the result is exactly membership in some non-raising
strategy's contribution. -/
theorem c7_discover_union :
    Hue.discover_bridges false (.ok ["10.0.0.5"]) (.ok []) (.ok none)
        (.ok ["10.0.0.5", "10.0.0.9"]) = ["10.0.0.5", "10.0.0.9"]
    ∧ (∀ sk c s m w, (Hue.discover_bridges sk c s m w).Sorted strLe
        ∧ (Hue.discover_bridges sk c s m w).Nodup)
    ∧ (∀ sk s m w, Hue.discover_bridges sk (.error ()) s m w
        = Hue.discover_bridges sk (.ok []) s m w)
    ∧ (∀ sk c m w, Hue.discover_bridges sk c (.error ()) m w
        = Hue.discover_bridges sk c (.ok []) m w)
    ∧ (∀ sk c s w, Hue.discover_bridges sk c s (.error ()) w
        = Hue.discover_bridges sk c s (.ok none) w)
    ∧ (∀ sk c s m, Hue.discover_bridges sk c s m (.error ())
        = Hue.discover_bridges sk c s m (.ok []))
    ∧ (∀ c c' s m w, Hue.discover_bridges true c s m w
        = Hue.discover_bridges true c' s m w)
    ∧ (∀ sk c s m w x, x ∈ Hue.discover_bridges sk c s m w ↔
        ((sk = false ∧ ∃ l, c = .ok l ∧ x ∈ l) ∨ (∃ l, s = .ok l ∧ x ∈ l)
          ∨ m = .ok (some x) ∨ ∃ l, w = .ok l ∧ x ∈ l)) := by
  refine ⟨by decide, fun sk c s m w => ⟨sortedDedup_sorted _, sortedDedup_nodup _⟩,
    fun _ _ _ _ => rfl, fun _ _ _ _ => rfl, fun _ _ _ _ => rfl, fun _ _ _ _ => rfl,
    fun _ _ _ _ _ => rfl, fun sk c s m w x => ?_⟩
  simp only [Hue.discover_bridges]
  rw [mem_sortedDedup]
  cases sk <;> rcases c with _ | cl <;> rcases s with _ | sl <;>
    rcases m with _ | _ | ip <;> rcases w with _ | wl <;>
    simp [Hue.strategyIPs, eq_comm]

/-- C8 counterexample: for a room whose response carries both aggregate
state fields (`any_on = all_on = false`) and a commanded `action.on = true`,
the older revision's `list_rooms_detailed` (`src/hue.py`) reports
`on = true` — the commanded field — while the newer revision reports the
aggregate `false`, refuting the claim for the older listing. -/
theorem c8_room_on_counterexample :
    Hue0.list_rooms_detailed (.obj [("1", .obj [("type", .str "Room"),
        ("name", .str "Stue"),
        ("state", .obj [("any_on", .bool false), ("all_on", .bool false)]),
        ("action", .obj [("on", .bool true), ("bri", .num 200)])])])
      = .ok [("1", ⟨.str "Stue", true, 79, false⟩)]
    ∧ Hue.list_rooms_detailed (.obj [("1", .obj [("type", .str "Room"),
        ("name", .str "Stue"),
        ("state", .obj [("any_on", .bool false), ("all_on", .bool false)]),
        ("action", .obj [("on", .bool true), ("bri", .num 200)])])])
      = .ok [("1", ⟨.str "Stue", false, 79, false⟩)] :=
  ⟨rfl, rfl⟩

/-- C8 amended: `room_is_on` and the newer `list_rooms_detailed` prefer the
aggregate `state.any_on`, then `state.all_on`, and consult the commanded
`action.on` only when no aggregate field is present; the older revision's
`list_rooms_detailed` reads only `action.on`, ignoring the aggregate state
entirely. -/
theorem c8_room_on_amended :
    (∀ data v, (data.getD "state" (.obj [])).lookup? "any_on" = some v →
        Hue.raise_if_error data = .ok data →
        Hue.room_is_on data = .ok v.truthy)
    ∧ (∀ data v, (data.getD "state" (.obj [])).lookup? "any_on" = none →
        (data.getD "state" (.obj [])).lookup? "all_on" = some v →
        Hue.raise_if_error data = .ok data →
        Hue.room_is_on data = .ok v.truthy)
    ∧ (∀ data, (data.getD "state" (.obj [])).lookup? "any_on" = none →
        (data.getD "state" (.obj [])).lookup? "all_on" = none →
        Hue.raise_if_error data = .ok data →
        Hue.room_is_on data
          = .ok (((data.getD "action" (.obj [])).getD "on" (.bool false)).truthy))
    ∧ (∀ gid info v, (info.getD "state" (.obj [])).lookup? "any_on" = some v →
        (Hue.roomEntry gid info).is_on = v.truthy)
    ∧ (∀ gid st st' act,
        (Hue0.roomEntry gid (.obj [("state", st), ("action", act)])).is_on
          = (Hue0.roomEntry gid (.obj [("state", st'), ("action", act)])).is_on) := by
  refine ⟨fun data v h1 hok => ?_, fun data v h1 h2 hok => ?_, fun data h1 h2 hok => ?_,
    fun gid info v h1 => ?_, fun gid st st' act => rfl⟩
  · simp [Hue.room_is_on, hok, h1]
  · simp [Hue.room_is_on, hok, h1, h2]
  · simp [Hue.room_is_on, hok, h1, h2]
  · simp only [Json.getD] at h1
    simp [Hue.roomEntry, Json.getD, h1]

/-- Witness for `c8_room_on_amended`: a concrete group response with
`state.any_on = true` and a stale `action.on = false` reads as on. -/
theorem c8_room_on_amended_witness :
    Hue.room_is_on (.obj [("state", .obj [("any_on", .bool true)]),
        ("action", .obj [("on", .bool false)])])
      = .ok ((Json.bool true).truthy) :=
  c8_room_on_amended.1 (.obj [("state", .obj [("any_on", .bool true)]),
    ("action", .obj [("on", .bool false)])]) (.bool true) rfl rfl

/-- C9 counterexample: a light that is off and whose state has no `bri`
field is reported with UI brightness 100, not 0 — the absent field defaults
to the numeric device value 254 before the on/off fallback is ever
consulted. -/
theorem c9_bri_fallback_counterexample :
    Hue.list_lights_detailed (.obj [("1", .obj [("name", .str "Lamp"),
        ("state", .obj [("on", .bool false)])])])
      = .ok [("1", ⟨.str "Lamp", false, 100, false⟩)]
    ∧ ¬ ((Hue.lightEntry "1" (.obj [("name", .str "Lamp"),
        ("state", .obj [("on", .bool false)])])).bri = 0) := by
  exact ⟨rfl, by decide⟩

/-- C9 amended: only a `bri` field that is present but non-numeric falls
back to 100 when the light is on and 0 when it is off; an absent `bri`
field defaults to device value 254 and is reported as UI brightness 100
regardless of the light's on state. -/
theorem c9_bri_fallback_amended :
    (∀ lid info v, (info.getD "state" (.obj [])).lookup? "bri" = some v →
        v.isNumeric = false →
        (Hue.lightEntry lid info).bri
          = (if (Hue.lightEntry lid info).is_on then 100 else 0))
    ∧ (∀ lid info, (info.getD "state" (.obj [])).lookup? "bri" = none →
        (Hue.lightEntry lid info).bri = 100) := by
  constructor
  · intro lid info v h1 h2
    simp only [Json.getD] at h1
    simp [Hue.lightEntry, Json.getD, h1, h2]
  · intro lid info h1
    simp only [Json.getD] at h1
    simp [Hue.lightEntry, Json.getD, h1, Json.isNumeric, Json.toIntVal]
    decide

/-- Witness for `c9_bri_fallback_amended`: a light that is on with a
non-numeric `bri` reads as UI brightness 100 via the on/off fallback. -/
theorem c9_bri_fallback_amended_witness :
    (Hue.lightEntry "1" (.obj [("state", .obj [("on", .bool true), ("bri", .str "max")])])).bri
      = (if (Hue.lightEntry "1" (.obj [("state",
          .obj [("on", .bool true), ("bri", .str "max")])])).is_on then 100 else 0) :=
  c9_bri_fallback_amended.1 "1"
    (.obj [("state", .obj [("on", .bool true), ("bri", .str "max")])]) (.str "max") rfl rfl
